import Mathlib

set_option maxHeartbeats 1000000

/-!
Shallow embedding of the libcurl HTTP wrapper `net::HttpClient`
(`src/includes/http_client.hpp`, `src/src/http_client.cpp`).

Bytes are modelled as `Nat`, raw text lines as `List Char`.  The external
transfer engine (libcurl) is modelled by the sequence of header lines and
body chunks it delivers to the registered write callbacks, together with
the outcome (success with a status code, or failure with a diagnostic
string) of the synchronous perform call.  Handle configuration is modelled
as a trace of engine option-setting operations folded into a handle state.
-/

namespace net

/-- One raw line (or chunk of text) as the byte-for-byte character sequence
delivered by the engine to the header write callback. -/
abbrev Line := List Char

/-- One (name, value) header pair, as stored in `hdr_acc_` / `Response.headers`. -/
abbrev HdrPair := Line × Line

/-- Mirrors `struct Response` (`http_client.hpp` lines 12-16): status code,
raw body bytes, parsed header pairs. -/
structure Response where
  status : Int
  body : List Nat
  headers : List HdrPair
deriving DecidableEq

/-- Mirrors `class HttpError` (`http_client.hpp` lines 18-21): a single
exception type carrying only a `what` message string. -/
structure HttpError where
  msg : Line
deriving DecidableEq

/-- Mirrors `HttpClient::Options` (`http_client.hpp` lines 25-37). -/
structure Options where
  timeout_ms : Int
  follow_redirects : Bool
  user_agent : Option Line
  verify_peer : Bool
  verify_host : Bool
deriving DecidableEq

/-- Mirrors the `Options()` default constructor (`http_client.hpp` lines 31-36). -/
def Options.default : Options :=
  { timeout_ms := 15000
    follow_redirects := true
    user_agent := some "HttpClient/1.0".toList
    verify_peer := true
    verify_host := true }

/-- Mirrors `line.rfind("HTTP/", 0) == 0` (`http_client.cpp` line 87): the
line begins with the protocol/version token. -/
def isStatusLine (line : Line) : Bool :=
  "HTTP/".toList.isPrefixOf line

/-- Mirrors `line.substr(0, line.find("\r\n"))` (`http_client.cpp` line 91):
the prefix of the line up to (excluding) the first occurrence of CRLF, or the
whole line when no CRLF occurs. -/
def takeUntilCRLF : Line → Line
  | [] => []
  | '\r' :: '\n' :: _ => []
  | c :: rest => c :: takeUntilCRLF rest

/-- Mirrors the blank-line test `!(!line.empty() && line != "\r\n")`
(`http_client.cpp` line 90): the line is empty or is exactly CRLF. -/
def isBlankLine (line : Line) : Bool :=
  line.isEmpty || line == ['\r', '\n']

/-- Mirrors `split_header_line` (`http_client.cpp` lines 73-80):
`pos = line.find(':')`; when no colon exists the result is `(line, "")`;
otherwise the name is `line.substr(0, pos)` and the value is the suffix after
the colon with leading spaces and tabs skipped. -/
def split_header_line (line : Line) : HdrPair :=
  if line.any (fun c => c = ':') then
    (line.takeWhile (fun c => ¬ (c = ':')),
     ((line.dropWhile (fun c => ¬ (c = ':'))).drop 1).dropWhile
       (fun c => c = ' ' || c = '\t'))
  else (line, [])

/-- Mirrors `HttpClient::write_header_cb` (`http_client.cpp` lines 82-95) as a
function on the accumulated header list `hdr_acc_`: a status line clears the
accumulator; a non-blank non-status line is CRLF-stripped, split, and appended;
a blank line leaves the accumulator unchanged. -/
def write_header_cb (acc : List HdrPair) (line : Line) : List HdrPair :=
  if isStatusLine line then []
  else if isBlankLine line then acc
  else acc ++ [split_header_line (takeUntilCRLF line)]

/-- Folds `write_header_cb` over every header line delivered by the engine
during one transfer, in delivery order. -/
def processHeaderLines (acc : List HdrPair) (lines : List Line) : List HdrPair :=
  lines.foldl write_header_cb acc

/-- Mirrors `HttpClient::write_body_cb` (`http_client.cpp` lines 67-71) as a
function on the accumulated body `body_acc_`: the chunk's bytes are appended
verbatim. -/
def write_body_cb (acc : List Nat) (chunk : List Nat) : List Nat :=
  acc ++ chunk

/-- Folds `write_body_cb` over every body chunk delivered by the engine during
one transfer, in delivery order. -/
def processBodyChunks (acc : List Nat) (chunks : List (List Nat)) : List Nat :=
  chunks.foldl write_body_cb acc

/-- Specification-side description of the final header section: the lines
strictly after the last status line of the stream (all lines when the stream
has no status line). -/
def afterLastStatus : List Line → List Line
  | [] => []
  | l :: rest =>
    if rest.any (fun x => isStatusLine x) then afterLastStatus rest
    else if isStatusLine l then rest
    else l :: rest

/-- Specification-side parse of one header section: blank lines are dropped,
every other line is CRLF-stripped and colon-split, in order. -/
def parseHeaderSection (lines : List Line) : List HdrPair :=
  (lines.filter (fun l => ¬ isBlankLine l)).map
    (fun l => split_header_line (takeUntilCRLF l))

/-- Model of the engine handle's option state (the observable effect of the
CURLOPT settings this wrapper uses).  Callback registration is modelled by
booleans recording that the wrapper's static callback was installed with this
session instance as its userdata. -/
structure HandleOpts where
  writefunction_body : Bool
  writedata_self : Bool
  headerfunction_hdr : Bool
  headerdata_self : Bool
  timeout_ms : Int
  followlocation : Int
  useragent : Option Line
  ssl_verifypeer : Int
  ssl_verifyhost : Int
  httpget : Bool
  httppost : Bool
  url : Option Line
  postfields : Option (List Nat)
  postfieldsize : Option Int
  httpheader : Option (List Line)
deriving DecidableEq

/-- State of a handle after `curl_easy_reset` (or fresh from `curl_easy_init`):
all wrapper-relevant options back at the engine defaults. -/
def neutralHandle : HandleOpts :=
  { writefunction_body := false
    writedata_self := false
    headerfunction_hdr := false
    headerdata_self := false
    timeout_ms := 0
    followlocation := 0
    useragent := none
    ssl_verifypeer := 1
    ssl_verifyhost := 2
    httpget := false
    httppost := false
    url := none
    postfields := none
    postfieldsize := none
    httpheader := none }

/-- One engine call issued by the wrapper against the handle: either the
reset, or one `curl_easy_setopt` with its argument. -/
inductive EngineOp where
  | reset
  | setWriteFunctionBody
  | setWriteDataSelf
  | setHeaderFunctionHdr
  | setHeaderDataSelf
  | setTimeoutMs (ms : Int)
  | setFollowLocation (v : Int)
  | setUserAgent (ua : Line)
  | setSslVerifyPeer (v : Int)
  | setSslVerifyHost (v : Int)
  | setHttpGet (v : Int)
  | setHttpPost (v : Int)
  | setUrl (u : Line)
  | setPostFields (d : List Nat)
  | setPostFieldSize (n : Int)
  | setHttpHeader (hs : List Line)
deriving DecidableEq

/-- Effect of one engine call on the handle state. -/
def applyOp (h : HandleOpts) : EngineOp → HandleOpts
  | .reset => neutralHandle
  | .setWriteFunctionBody => { h with writefunction_body := true }
  | .setWriteDataSelf => { h with writedata_self := true }
  | .setHeaderFunctionHdr => { h with headerfunction_hdr := true }
  | .setHeaderDataSelf => { h with headerdata_self := true }
  | .setTimeoutMs ms => { h with timeout_ms := ms }
  | .setFollowLocation v => { h with followlocation := v }
  | .setUserAgent ua => { h with useragent := some ua }
  | .setSslVerifyPeer v => { h with ssl_verifypeer := v }
  | .setSslVerifyHost v => { h with ssl_verifyhost := v }
  | .setHttpGet _ => { h with httpget := true }
  | .setHttpPost _ => { h with httppost := true }
  | .setUrl u => { h with url := some u }
  | .setPostFields d => { h with postfields := some d }
  | .setPostFieldSize n => { h with postfieldsize := some n }
  | .setHttpHeader hs => { h with httpheader := some hs }

/-- Folds a trace of engine calls into a handle state, in issue order. -/
def runOps (h : HandleOpts) (ops : List EngineOp) : HandleOpts :=
  ops.foldl applyOp h

/-- Mirrors `HttpClient::apply_common_options` (`http_client.cpp` lines 48-65)
as the trace of engine calls it issues: reset, callback registration, timeout,
redirect policy, user agent (only when present and non-empty), and the two TLS
verification options. -/
def apply_common_options (opt : Options) : List EngineOp :=
  [.reset,
   .setWriteFunctionBody, .setWriteDataSelf,
   .setHeaderFunctionHdr, .setHeaderDataSelf,
   .setTimeoutMs opt.timeout_ms,
   .setFollowLocation (if opt.follow_redirects then 1 else 0)]
  ++ (match opt.user_agent with
      | some ua => if ua.isEmpty then [] else [.setUserAgent ua]
      | none => [])
  ++ [.setSslVerifyPeer (if opt.verify_peer then 1 else 0),
      .setSslVerifyHost (if opt.verify_host then 2 else 0)]

/-- Mirrors `sl.add(k + ": " + v)` in the request-header loop
(`http_client.cpp` lines 123-126 and 141-144): the formatted slist entries. -/
def slistOf (headers : List HdrPair) : List Line :=
  headers.map (fun p => p.1 ++ ':' :: ' ' :: p.2)

/-- Trace of engine calls issued by `HttpClient::get` before the perform
(`http_client.cpp` lines 117-128): baseline options, HTTPGET, URL, and the
header slist when it is non-null (at least one entry was appended). -/
def get_setup_ops (opt : Options) (url : Line) (headers : List HdrPair) :
    List EngineOp :=
  apply_common_options opt ++ [.setHttpGet 1, .setUrl url]
  ++ (if (slistOf headers).isEmpty then [] else [.setHttpHeader (slistOf headers)])

/-- Trace of engine calls issued by `HttpClient::post` before the perform
(`http_client.cpp` lines 132-146): baseline options, POST, URL, the body's
data pointer, the body's explicit byte length, and the header slist when it is
non-null. -/
def post_setup_ops (opt : Options) (url : Line) (data : List Nat)
    (headers : List HdrPair) : List EngineOp :=
  apply_common_options opt ++
  [.setHttpPost 1, .setUrl url,
   .setPostFields data, .setPostFieldSize (Int.ofNat data.length)]
  ++ (if (slistOf headers).isEmpty then [] else [.setHttpHeader (slistOf headers)])

/-- Engine semantics for the body actually transmitted from the configured
POSTFIELDS buffer: with POSTFIELDSIZE set the engine sends exactly that many
bytes; without it the engine measures the buffer like strlen would, stopping
at the first zero byte. -/
def transmittedBody (h : HandleOpts) : Option (List Nat) :=
  match h.postfields with
  | none => none
  | some d =>
    match h.postfieldsize with
    | some n => some (d.take n.toNat)
    | none => some (d.takeWhile (fun b => ¬ (b = 0)))

/-- Outcome of one synchronous `curl_easy_perform`: the header lines and body
chunks delivered to the registered callbacks during the transfer, and either
the final response code or the engine's diagnostic string. -/
inductive Transfer where
  | ok (headerLines : List Line) (bodyChunks : List (List Nat)) (code : Int)
  | fail (headerLines : List Line) (bodyChunks : List (List Nat)) (msg : Line)

/-- Mirrors `class HttpClient`'s data members (`http_client.hpp` lines 82-86)
for a constructed session: handle option state, stored options, and the two
accumulators. -/
structure HttpClient where
  h_ : HandleOpts
  opt_ : Options
  body_acc_ : List Nat
  hdr_acc_ : List HdrPair

/-- Delivery of one transfer's callback stream into the session's
accumulators: every header line through `write_header_cb`, every body chunk
through `write_body_cb`, each in delivery order. -/
def deliverTransfer (c : HttpClient) (hls : List Line) (bcs : List (List Nat)) :
    HttpClient :=
  { c with hdr_acc_ := processHeaderLines c.hdr_acc_ hls,
           body_acc_ := processBodyChunks c.body_acc_ bcs }

/-- Mirrors `HttpClient::perform_with_headers_and_body` (`http_client.cpp`
lines 97-115): clear both accumulators, perform (callbacks fill the
accumulators); on engine failure throw `HttpError` with the diagnostic
appended to the fixed prefix; on success build the `Response` from the status
code and the accumulators, which are moved out leaving them empty. -/
def perform_with_headers_and_body (c : HttpClient) (tr : Transfer) :
    Except HttpError Response × HttpClient :=
  let c0 : HttpClient := { c with body_acc_ := [], hdr_acc_ := [] }
  match tr with
  | .fail hls bcs msg =>
    let c1 := deliverTransfer c0 hls bcs
    (.error ⟨"curl_easy_perform failed: ".toList ++ msg⟩, c1)
  | .ok hls bcs code =>
    let c1 := deliverTransfer c0 hls bcs
    (.ok { status := code, body := c1.body_acc_, headers := c1.hdr_acc_ },
     { c1 with body_acc_ := [], hdr_acc_ := [] })

/-- Mirrors `HttpClient::get` (`http_client.cpp` lines 117-130): issue the
setup trace against the handle, then perform. -/
def HttpClient.get (c : HttpClient) (url : Line) (headers : List HdrPair)
    (tr : Transfer) : Except HttpError Response × HttpClient :=
  perform_with_headers_and_body
    { c with h_ := runOps c.h_ (get_setup_ops c.opt_ url headers) } tr

/-- Mirrors `HttpClient::post` (`http_client.cpp` lines 132-148): issue the
setup trace (including body pointer and explicit length) against the handle,
then perform. -/
def HttpClient.post (c : HttpClient) (url : Line) (data : List Nat)
    (headers : List HdrPair) (tr : Transfer) :
    Except HttpError Response × HttpClient :=
  perform_with_headers_and_body
    { c with h_ := runOps c.h_ (post_setup_ops c.opt_ url data headers) } tr

/-- Mirrors `HttpClient::set_options` (`http_client.cpp` lines 43-46). -/
def HttpClient.set_options (c : HttpClient) (opt : Options) : HttpClient :=
  { c with opt_ := opt, h_ := runOps c.h_ (apply_common_options opt) }

/-- Outcome of the constructor's environment-dependent steps:
`curl_global_init` failing, `curl_easy_init` returning null, or both
succeeding. -/
inductive InitOutcome where
  | globalFail
  | easyFail
  | ok
deriving DecidableEq

/-- Mirrors `HttpClient::HttpClient(Options)` together with
`global_init_once` (`http_client.cpp` lines 9-21): on global-init failure
throw `HttpError("curl_global_init failed")`; on a null easy handle throw
`HttpError("curl_easy_init failed")`; otherwise the session owns a fresh
handle with the baseline options applied and empty accumulators. -/
def constructClient (opt : Options) (io : InitOutcome) :
    Except HttpError HttpClient :=
  match io with
  | .globalFail => .error ⟨"curl_global_init failed".toList⟩
  | .easyFail => .error ⟨"curl_easy_init failed".toList⟩
  | .ok =>
    .ok { h_ := runOps neutralHandle (apply_common_options opt)
          opt_ := opt
          body_acc_ := []
          hdr_acc_ := [] }

/-- Classification of an error as construction-time: its message is one of
the two strings thrown from the constructor path. -/
def initErrorKind (e : HttpError) : Bool :=
  e.msg == "curl_global_init failed".toList
    || e.msg == "curl_easy_init failed".toList

/-- Classification of an error as transfer-time: its message starts with the
fixed prefix used by `perform_with_headers_and_body`. -/
def transferErrorKind (e : HttpError) : Bool :=
  "curl_easy_perform failed: ".toList.isPrefixOf e.msg

/-- Ownership view of the client for the move/destruction claims: `h_` models
the raw `CURL*` member, with `none` for `nullptr`, a `Nat` identifying the
underlying engine handle; `opt_` is the stored configuration
(`http_client.hpp` lines 83-84). -/
structure ClientHandle where
  h_ : Option Nat
  opt_ : Options
deriving DecidableEq

/-- Mirrors `HttpClient::~HttpClient` (`http_client.cpp` lines 25-27) as the
list of engine handles the destructor releases via `curl_easy_cleanup`. -/
def destructorReleases (c : ClientHandle) : List Nat :=
  match c.h_ with
  | some p => [p]
  | none => []

/-- Mirrors the move constructor (`http_client.cpp` lines 29-31): returns
(destination, source after the move). -/
def moveCtor (other : ClientHandle) : ClientHandle × ClientHandle :=
  ({ h_ := other.h_, opt_ := other.opt_ }, { other with h_ := none })

/-- Mirrors move assignment between distinct objects (`http_client.cpp`
lines 33-41): returns (destination after, source after, handles released by
the assignment itself, i.e. the destination's old handle). -/
def moveAssign (dst other : ClientHandle) :
    ClientHandle × ClientHandle × List Nat :=
  ({ h_ := other.h_, opt_ := other.opt_ },
   { other with h_ := none },
   destructorReleases dst)

/-- Mirrors the `this != &other` guard of move assignment: self-assignment
leaves the object unchanged and releases nothing. -/
def moveAssignSelf (c : ClientHandle) : ClientHandle × List Nat :=
  (c, [])

/-- Specification-side statement of the baseline option set of the spec's
§4 "Baseline configuration application", as handle field values. -/
def baselineApplied (h : HandleOpts) (opt : Options) : Prop :=
  h.writefunction_body = true ∧ h.writedata_self = true
  ∧ h.headerfunction_hdr = true ∧ h.headerdata_self = true
  ∧ h.timeout_ms = opt.timeout_ms
  ∧ h.followlocation = (if opt.follow_redirects then 1 else 0)
  ∧ h.useragent = (match opt.user_agent with
      | some ua => if ua.isEmpty then none else some ua
      | none => none)
  ∧ h.ssl_verifypeer = (if opt.verify_peer then 1 else 0)
  ∧ h.ssl_verifyhost = (if opt.verify_host then 2 else 0)

theorem afterLastStatus_of_no_status (lines : List Line)
    (h : lines.any (fun x => isStatusLine x) = false) :
    afterLastStatus lines = lines := by
  induction lines with
  | nil => rfl
  | cons l rest ih =>
    simp only [List.any_cons, Bool.or_eq_false_iff] at h
    simp [afterLastStatus, h.1, h.2, ih h.2]

theorem foldl_write_header_cb (lines : List Line) :
    ∀ acc, List.foldl write_header_cb acc lines =
      (if lines.any (fun l => isStatusLine l) then [] else acc)
        ++ parseHeaderSection (afterLastStatus lines) := by
  induction lines with
  | nil =>
    intro acc
    simp [parseHeaderSection, afterLastStatus]
  | cons l rest ih =>
    intro acc
    simp only [List.foldl_cons, List.any_cons]
    rw [ih]
    by_cases hst : isStatusLine l
    · by_cases hr : rest.any (fun x => isStatusLine x)
      · simp [afterLastStatus, write_header_cb, hst, hr]
      · simp only [Bool.not_eq_true] at hr
        simp [afterLastStatus, write_header_cb, hst, hr,
          afterLastStatus_of_no_status rest hr]
    · by_cases hr : rest.any (fun x => isStatusLine x)
      · by_cases hb : isBlankLine l
        · simp [afterLastStatus, write_header_cb, hst, hr, hb]
        · simp [afterLastStatus, write_header_cb, hst, hr, hb]
      · simp only [Bool.not_eq_true] at hr
        by_cases hb : isBlankLine l
        · simp [afterLastStatus, write_header_cb, hst, hr, hb,
            afterLastStatus_of_no_status rest hr, parseHeaderSection]
        · simp [afterLastStatus, write_header_cb, hst, hr, hb,
            afterLastStatus_of_no_status rest hr, parseHeaderSection]

theorem split_header_line_no_colon (line : Line)
    (h : ∀ c ∈ line, ¬ (c = ':')) :
    split_header_line line = (line, []) := by
  have hany : line.any (fun c => c = ':') = false := by
    simp only [List.any_eq_false, decide_eq_false_iff_not]
    intro c hc
    simpa using h c hc
  simp [split_header_line, hany]

theorem split_header_line_colon (name rest : Line)
    (h : ∀ c ∈ name, ¬ (c = ':')) :
    split_header_line (name ++ ':' :: rest) =
      (name, rest.dropWhile (fun c => c = ' ' || c = '\t')) := by
  induction name with
  | nil => simp [split_header_line]
  | cons a as ih =>
    have ha : ¬ (a = ':') := h a (List.mem_cons_self a as)
    have has : ∀ c ∈ as, ¬ (c = ':') := fun c hc => h c (List.mem_cons_of_mem a hc)
    have ihp := ih has
    have hany2 : (as ++ ':' :: rest).any (fun c => c = ':') = true := by simp
    simp only [split_header_line, hany2, if_true] at ihp
    have hany : (a :: (as ++ ':' :: rest)).any (fun c => c = ':') = true := by simp
    simp only [List.cons_append, split_header_line, hany, if_true]
    rw [List.takeWhile_cons_of_pos (by simp [ha]),
        List.dropWhile_cons_of_pos (by simp [ha])]
    rw [Prod.ext_iff] at ihp
    exact Prod.ext_iff.mpr ⟨by simpa using congrArg (fun l => a :: l) ihp.1, ihp.2⟩

theorem processBodyChunks_eq_flatten (chunks : List (List Nat)) :
    ∀ acc, processBodyChunks acc chunks = acc ++ chunks.flatten := by
  induction chunks with
  | nil => intro acc; simp [processBodyChunks]
  | cons c cs ih =>
    intro acc
    simp only [processBodyChunks, List.foldl_cons] at *
    rw [ih (write_body_cb acc c)]
    simp [write_body_cb]

theorem isPrefixOf_self_append (l m : Line) : l.isPrefixOf (l ++ m) = true := by
  induction l with
  | nil => simp [List.isPrefixOf]
  | cons a as ih => simp [List.isPrefixOf, ih]

theorem runOps_append (h : HandleOpts) (l1 l2 : List EngineOp) :
    runOps h (l1 ++ l2) = runOps (runOps h l1) l2 := by
  simp [runOps, List.foldl_append]

theorem runOps_apply_common_options (h : HandleOpts) (opt : Options) :
    runOps h (apply_common_options opt) =
      { neutralHandle with
        writefunction_body := true
        writedata_self := true
        headerfunction_hdr := true
        headerdata_self := true
        timeout_ms := opt.timeout_ms
        followlocation := if opt.follow_redirects then 1 else 0
        useragent := match opt.user_agent with
          | some ua => if ua.isEmpty then none else some ua
          | none => none
        ssl_verifypeer := if opt.verify_peer then 1 else 0
        ssl_verifyhost := if opt.verify_host then 2 else 0 } := by
  rcases opt with ⟨t, fr, ua, vp, vh⟩
  cases ua with
  | none => rfl
  | some u =>
    by_cases hu : u.isEmpty
    · simp only [apply_common_options, runOps, hu, if_true]
      rfl
    · simp only [apply_common_options, runOps, hu, if_false]
      rfl

/-- C1: during one request, the headers of the returned `Response` are exactly
the pairs parsed from the header lines received after the last status line
(all lines when no status line occurs), in delivery order; pairs accumulated
before a status line are discarded when it arrives, so no header of an earlier
redirect or interim section survives. -/
theorem c1_headers_from_final_section (c : HttpClient) (url : Line)
    (hs : List HdrPair) (hls : List Line) (bcs : List (List Nat)) (code : Int) :
    ∃ r : Response,
      (c.get url hs (Transfer.ok hls bcs code)).1 = Except.ok r
      ∧ r.headers = parseHeaderSection (afterLastStatus hls) := by
  refine ⟨_, rfl, ?_⟩
  show processHeaderLines [] hls = parseHeaderSection (afterLastStatus hls)
  have h := foldl_write_header_cb hls []
  simpa [processHeaderLines, ite_self] using h

/-- C4: a non-status header line is handled by the header callback as
follows — a blank line (empty or CRLF) leaves the accumulator unchanged;
otherwise the CRLF-stripped line is split at its first colon into name and
leading-whitespace-trimmed value; and a line with no colon is stored as the
pair (whole line, empty value). -/
theorem c4_single_line_split (acc : List HdrPair) (line : Line)
    (h : isStatusLine line = false) :
    (isBlankLine line = true → write_header_cb acc line = acc)
    ∧ (isBlankLine line = false →
        ∀ name rest, takeUntilCRLF line = name ++ ':' :: rest →
          (∀ c ∈ name, ¬ (c = ':')) →
          write_header_cb acc line =
            acc ++ [(name, rest.dropWhile (fun c => c = ' ' || c = '\t'))])
    ∧ (isBlankLine line = false →
        (∀ c ∈ takeUntilCRLF line, ¬ (c = ':')) →
          write_header_cb acc line = acc ++ [(takeUntilCRLF line, [])]) := by
  refine ⟨?_, ?_, ?_⟩
  · intro hb
    simp [write_header_cb, h, hb]
  · intro hb name rest hsplit hname
    simp only [write_header_cb, h, Bool.false_eq_true, if_false, hb]
    rw [hsplit, split_header_line_colon name rest hname]
  · intro hb hnc
    simp only [write_header_cb, h, Bool.false_eq_true, if_false, hb]
    rw [split_header_line_no_colon _ hnc]

/-- Witness for C4 at the concrete line "X-A: b\r\n". -/
theorem c4_single_line_split_witness :
    write_header_cb [] "X-A: b\r\n".toList = [("X-A".toList, "b".toList)] := by
  have h := (c4_single_line_split [] "X-A: b\r\n".toList (by decide)).2.1
    (by decide) "X-A".toList (' ' :: "b".toList) (by decide) (by decide)
  rw [h]
  decide

/-- C5: the body of the returned `Response` is the byte-for-byte
concatenation, in invocation order, of the chunks handed to the body
callback — no byte transformed, reordered, dropped, or added. -/
theorem c5_body_verbatim_concatenation (c : HttpClient) (url : Line)
    (hs : List HdrPair) (hls : List Line) (bcs : List (List Nat)) (code : Int) :
    (∃ r : Response,
      (c.get url hs (Transfer.ok hls bcs code)).1 = Except.ok r
      ∧ r.body = bcs.flatten)
    ∧ processBodyChunks [] bcs = bcs.flatten := by
  refine ⟨⟨_, rfl, ?_⟩, ?_⟩
  · show processBodyChunks [] bcs = bcs.flatten
    exact (processBodyChunks_eq_flatten bcs []).trans (List.nil_append _)
  · exact (processBodyChunks_eq_flatten bcs []).trans (List.nil_append _)

/-- C2: both accumulators are cleared at the start of every get/post before
the transfer runs and are moved into the returned `Response` on success: the
response of a call is determined by that call's transfer alone (whatever
residue the session carried), the post-call session accumulators are empty,
and in particular the second of two sequential calls on one session returns a
body and header list built only from the second transfer. -/
theorem c2_accumulators_never_leak (c : HttpClient) (url1 : Line)
    (hs1 : List HdrPair) (tr1 : Transfer) (url : Line) (hs : List HdrPair)
    (hls : List Line) (bcs : List (List Nat)) (code : Int) (data : List Nat) :
    ((c.get url hs (Transfer.ok hls bcs code)).1
      = Except.ok ⟨code, processBodyChunks [] bcs, processHeaderLines [] hls⟩)
    ∧ ((c.post url data hs (Transfer.ok hls bcs code)).1
      = Except.ok ⟨code, processBodyChunks [] bcs, processHeaderLines [] hls⟩)
    ∧ ((c.get url hs (Transfer.ok hls bcs code)).2.body_acc_ = []
        ∧ (c.get url hs (Transfer.ok hls bcs code)).2.hdr_acc_ = [])
    ∧ ((HttpClient.get (c.get url1 hs1 tr1).2 url hs (Transfer.ok hls bcs code)).1
      = Except.ok ⟨code, processBodyChunks [] bcs, processHeaderLines [] hls⟩)
    ∧ ((HttpClient.post (c.post url1 data hs1 tr1).2 url data hs
          (Transfer.ok hls bcs code)).1
      = Except.ok ⟨code, processBodyChunks [] bcs, processHeaderLines [] hls⟩) := by
  refine ⟨rfl, rfl, ⟨rfl, rfl⟩, ?_, ?_⟩ <;> cases tr1 <;> rfl

/-- C3: when the engine's perform reports failure, get and post return the
`HttpError` carrying the engine diagnostic appended to the fixed prefix and no
`Response` is produced; the session that comes out of the failed call behaves
on its next call exactly like any session with the same options; when perform
succeeds, a `Response` is returned and no error is raised. -/
theorem c3_transfer_error_on_failure (c : HttpClient) (url : Line)
    (hs : List HdrPair) (pH : List Line) (pB : List (List Nat)) (m : Line)
    (url2 : Line) (hs2 : List HdrPair) (hls : List Line) (bcs : List (List Nat))
    (code : Int) (data : List Nat) :
    ((c.get url hs (Transfer.fail pH pB m)).1
      = Except.error ⟨"curl_easy_perform failed: ".toList ++ m⟩)
    ∧ ((c.post url data hs (Transfer.fail pH pB m)).1
      = Except.error ⟨"curl_easy_perform failed: ".toList ++ m⟩)
    ∧ ((HttpClient.get (c.get url hs (Transfer.fail pH pB m)).2 url2 hs2
          (Transfer.ok hls bcs code)).1
      = Except.ok ⟨code, processBodyChunks [] bcs, processHeaderLines [] hls⟩)
    ∧ (∃ r : Response,
        (c.get url2 hs2 (Transfer.ok hls bcs code)).1 = Except.ok r) := by
  exact ⟨rfl, rfl, rfl, ⟨_, rfl⟩⟩

/-- C6: post hands the engine the body's data and its explicit byte length
equal to the full size of the argument — for every body, zero bytes included,
the configured POSTFIELDSIZE is the body's length and the transmitted body is
the whole body, never cut at a zero terminator. -/
theorem c6_post_full_byte_length (h : HandleOpts) (opt : Options) (url : Line)
    (data : List Nat) (hs : List HdrPair) :
    (runOps h (post_setup_ops opt url data hs)).postfields = some data
    ∧ (runOps h (post_setup_ops opt url data hs)).postfieldsize
      = some (Int.ofNat data.length)
    ∧ transmittedBody (runOps h (post_setup_ops opt url data hs)) = some data := by
  have hpf : (runOps h (post_setup_ops opt url data hs)).postfields = some data
      ∧ (runOps h (post_setup_ops opt url data hs)).postfieldsize
        = some (Int.ofNat data.length) := by
    by_cases hsl : (slistOf hs).isEmpty
    · simp [post_setup_ops, hsl, runOps_append, runOps, applyOp]
    · simp [post_setup_ops, hsl, runOps_append, runOps, applyOp]
  refine ⟨hpf.1, hpf.2, ?_⟩
  simp [transmittedBody, hpf.1, hpf.2, List.take_length]

/-- C7: the wrapper's failures come in exactly two distinguishable kinds —
construction fails with `HttpError` carrying one of the two init diagnostics
and produces no session, get/post fail with `HttpError` carrying the
perform-prefixed engine diagnostic — and an init-kind message is never a
transfer-kind message; successful construction and successful transfers raise
nothing. -/
theorem c7_two_error_kinds :
    (∀ opt : Options,
      constructClient opt InitOutcome.globalFail
        = Except.error ⟨"curl_global_init failed".toList⟩)
    ∧ (∀ opt : Options,
      constructClient opt InitOutcome.easyFail
        = Except.error ⟨"curl_easy_init failed".toList⟩)
    ∧ (∀ opt : Options, ∃ c : HttpClient,
        constructClient opt InitOutcome.ok = Except.ok c)
    ∧ (∀ (opt : Options) (io : InitOutcome) (e : HttpError),
        constructClient opt io = Except.error e → initErrorKind e = true)
    ∧ (∀ (c : HttpClient) (url : Line) (hs : List HdrPair) (pH : List Line)
        (pB : List (List Nat)) (m : Line), ∃ e : HttpError,
        (c.get url hs (Transfer.fail pH pB m)).1 = Except.error e
        ∧ transferErrorKind e = true)
    ∧ (∀ (c : HttpClient) (url : Line) (data : List Nat) (hs : List HdrPair)
        (pH : List Line) (pB : List (List Nat)) (m : Line), ∃ e : HttpError,
        (c.post url data hs (Transfer.fail pH pB m)).1 = Except.error e
        ∧ transferErrorKind e = true)
    ∧ (∀ e : HttpError, initErrorKind e = true → transferErrorKind e = false)
    ∧ (∀ (c : HttpClient) (url : Line) (hs : List HdrPair) (hls : List Line)
        (bcs : List (List Nat)) (code : Int), ∃ r : Response,
        (c.get url hs (Transfer.ok hls bcs code)).1 = Except.ok r) := by
  refine ⟨fun _ => rfl, fun _ => rfl, fun _ => ⟨_, rfl⟩, ?_, ?_, ?_, ?_, ?_⟩
  · intro opt io e he
    cases io with
    | globalFail =>
      cases he
      decide
    | easyFail =>
      cases he
      decide
    | ok => exact absurd he (by simp [constructClient])
  · intro c url hs pH pB m
    exact ⟨_, rfl, isPrefixOf_self_append "curl_easy_perform failed: ".toList m⟩
  · intro c url data hs pH pB m
    exact ⟨_, rfl, isPrefixOf_self_append "curl_easy_perform failed: ".toList m⟩
  · intro e he
    simp only [initErrorKind, Bool.or_eq_true, beq_iff_eq] at he
    obtain ⟨msg⟩ := e
    rcases he with h1 | h1 <;> (cases h1; decide)
  · intro c url hs hls bcs code
    exact ⟨_, rfl⟩

/-- Witness for C7 at the concrete init failure and a concrete transfer
failure: the init-kind diagnostic is classified as init and not as transfer. -/
theorem c7_two_error_kinds_witness :
    initErrorKind ⟨"curl_global_init failed".toList⟩ = true
    ∧ transferErrorKind ⟨"curl_global_init failed".toList⟩ = false := by
  constructor
  · exact c7_two_error_kinds.2.2.2.1 Options.default InitOutcome.globalFail
      ⟨"curl_global_init failed".toList⟩ rfl
  · exact c7_two_error_kinds.2.2.2.2.2.2.1 ⟨"curl_global_init failed".toList⟩
      (by decide)

/-- C8: before every request — in get and in post alike — the handle is
reset and the full baseline option set is applied, whatever state the handle
was left in: callbacks bound to the session, timeout in milliseconds,
redirect policy, user agent only when present and non-empty, TLS peer
verification on or off, and TLS host verification off or strict (level 2). -/
theorem c8_baseline_before_every_request (h : HandleOpts) (opt : Options)
    (url : Line) (hs : List HdrPair) (data : List Nat) :
    baselineApplied (runOps h (get_setup_ops opt url hs)) opt
    ∧ baselineApplied (runOps h (post_setup_ops opt url data hs)) opt := by
  have hc := runOps_apply_common_options h opt
  constructor
  · rw [get_setup_ops, runOps_append, runOps_append, hc]
    by_cases hsl : (slistOf hs).isEmpty <;>
      simp [hsl, runOps, applyOp, baselineApplied]
  · rw [post_setup_ops, runOps_append, runOps_append, hc]
    by_cases hsl : (slistOf hs).isEmpty <;>
      simp [hsl, runOps, applyOp, baselineApplied]

/-- C9: ownership of the one engine handle transfers exactly once on a move —
the destination takes the source's handle, the source is left null, the
destructor of the moved-from object releases nothing, move assignment first
releases the destination's old handle, and a self move-assignment changes
nothing and releases nothing. -/
theorem c9_move_transfers_ownership_once (src dst : ClientHandle) :
    ((moveCtor src).1.h_ = src.h_)
    ∧ ((moveCtor src).2.h_ = none)
    ∧ (destructorReleases (moveCtor src).2 = [])
    ∧ (destructorReleases (moveCtor src).1 = destructorReleases src)
    ∧ ((moveAssign dst src).1.h_ = src.h_)
    ∧ ((moveAssign dst src).2.1.h_ = none)
    ∧ (destructorReleases (moveAssign dst src).2.1 = [])
    ∧ ((moveAssign dst src).2.2 = destructorReleases dst)
    ∧ ((moveAssign dst src).2.2 ++ destructorReleases (moveAssign dst src).1
        ++ destructorReleases (moveAssign dst src).2.1
        = destructorReleases dst ++ destructorReleases src)
    ∧ (moveAssignSelf dst = (dst, [])) := by
  refine ⟨rfl, rfl, rfl, ?_, rfl, rfl, rfl, rfl, ?_, rfl⟩
  · cases hsrc : src.h_ <;> simp [moveCtor, destructorReleases, hsrc]
  · cases hsrc : src.h_ <;> cases hdst : dst.h_ <;>
      simp [moveAssign, destructorReleases, hsrc, hdst]

/-- C10: the default options carry the non-empty user agent "HttpClient/1.0",
so a caller who never sets one still has it applied to the handle by the
setup trace of every get and every post. -/
theorem c10_default_user_agent_always_sent :
    Options.default.user_agent = some "HttpClient/1.0".toList
    ∧ ("HttpClient/1.0".toList).isEmpty = false
    ∧ (∀ (h : HandleOpts) (url : Line) (hs : List HdrPair),
        (runOps h (get_setup_ops Options.default url hs)).useragent
          = some "HttpClient/1.0".toList)
    ∧ (∀ (h : HandleOpts) (url : Line) (data : List Nat) (hs : List HdrPair),
        (runOps h (post_setup_ops Options.default url data hs)).useragent
          = some "HttpClient/1.0".toList) := by
  refine ⟨rfl, rfl, ?_, ?_⟩
  · intro h url hs
    have hc := runOps_apply_common_options h Options.default
    rw [get_setup_ops, runOps_append, runOps_append, hc]
    by_cases hsl : (slistOf hs).isEmpty <;>
      simp [hsl, runOps, applyOp, Options.default]
  · intro h url data hs
    have hc := runOps_apply_common_options h Options.default
    rw [post_setup_ops, runOps_append, runOps_append, hc]
    by_cases hsl : (slistOf hs).isEmpty <;>
      simp [hsl, runOps, applyOp, Options.default]

end net
